import Mathlib

/-
Shallow embedding of the OAuth-Service repository (na2sime/OAuth-Service).

The embedded code:
  * src/services/auth.service.js  — token issuance, refresh, login, logout,
    verifyToken/verifyRefreshToken/verifyUser, validateRole, updatePassword,
    updateUser, deleteUser;
  * the user middleware (isAuthenticated, hasRole).

External libraries are modelled as ideal primitives:
  * bcrypt: hashing is an injective tagged encoding of the plaintext and
    compare(plain, h) succeeds exactly when h is the hash of plain;
  * jsonwebtoken: a signed token is the string
    "JWT.<id>.<exp>.<mac>" where the mac is determined by the secret, the id
    and the expiry; verification re-computes the mac and checks expiry, so it
    succeeds exactly on well-formed unexpired tokens made with the same
    secret, and it consults no store.
The document database is modelled as in-memory lists of records; findOne /
findById return the first match, deleteOne deletes the first match,
deleteMany deletes every match, and save overwrites the found document.
Timestamps are a single Nat clock in seconds (the source mixes the second
granularity of jwt expiresIn with millisecond Date arithmetic; only the
ordering of instants matters here).
-/

namespace OAuthService

/-! ## Dynamic JS values

The middleware reads properties off the object returned by jwt.verify; that
object has exactly the signed claims plus numeric timestamp fields, so a
read of an absent property yields undefined. -/

/-- A JS value as far as the embedded code inspects one: a string, a number,
or undefined. -/
inductive JsVal where
  | str (s : String)
  | num (n : Nat)
  | undef
deriving DecidableEq, Repr

/-- A JS object: a field list. -/
abbrev JsObj := List (String × JsVal)

/-- Property read on a JS object: the first binding for the key, undefined
when there is none. -/
def jsGet (o : JsObj) (k : String) : JsVal :=
  match o.find? (fun kv => kv.1 == k) with
  | some kv => kv.2
  | none => JsVal.undef

/-! ## bcrypt (modelled library) -/

/-- Modelled bcrypt.hash with cost factor 10: an ideal hash, rendered as an
injective tagged encoding of the plaintext. -/
def bcryptHash (plain : String) : String :=
  "$2b$10$" ++ plain

/-- Modelled bcrypt.compare: succeeds exactly when the stored hash is the
hash of the presented plaintext. -/
def bcryptCompare (plain stored : String) : Bool :=
  stored == bcryptHash plain

/-! ## jsonwebtoken (modelled library)

The service signs the payload with id only: jwt.sign with
an expiresIn option adds the exp (and iat) timestamp claims; no role is ever
placed in the payload (auth.service.js lines 13 and 17). -/

/-- The claims carried by a token of this service: the signed id and the exp
timestamp added by the library. -/
structure JwtPayload where
  id : String
  exp : Nat
deriving DecidableEq, Repr

/-- Structural split of a character list on one separator character. -/
def splitChar (sep : Char) : List Char → List (List Char)
  | [] => [[]]
  | c :: cs =>
    if c = sep then [] :: splitChar sep cs
    else
      match splitChar sep cs with
      | [] => [[c]]
      | w :: ws => (c :: w) :: ws

/-- Decimal value of one digit character. -/
def digitVal (c : Char) : Option Nat :=
  if 48 ≤ c.toNat ∧ c.toNat ≤ 57 then some (c.toNat - 48) else none

/-- Accumulating decimal parse of a character list. -/
def decNatAux : List Char → Nat → Option Nat
  | [], acc => some acc
  | c :: cs, acc =>
    match digitVal c with
    | some d => decNatAux cs (acc * 10 + d)
    | none => none

/-- Decimal parse of a non-empty character list. -/
def decNat : List Char → Option Nat
  | [] => none
  | c :: cs => decNatAux (c :: cs) 0

/-- Modelled message authentication code over the signed claims: determined
by the secret and the claims, so verification with the same secret accepts
and, with a different mac, rejects. -/
def jwtMac (secret id : String) (exp : Nat) : String :=
  secret ++ "#" ++ id ++ "#" ++ toString exp

/-- Modelled jwt.sign with an expiresIn of ttl seconds at time now: the
token string carries a fixed header, the id claim, the absolute expiry and
the mac. -/
def jwtSign (id secret : String) (now ttl : Nat) : String :=
  "JWT." ++ id ++ "." ++ toString (now + ttl) ++ "." ++ jwtMac secret id (now + ttl)

/-- Signature half of modelled jwt.verify: parse the four dot-separated
segments and check the mac against the presented secret. No store is
consulted. -/
def jwtParse (token secret : String) : Option JwtPayload :=
  match splitChar '.' token.data with
  | [hdr, idCs, expCs, macCs] =>
    match decNat expCs with
    | some exp =>
      if String.mk hdr = "JWT" ∧ String.mk macCs = jwtMac secret (String.mk idCs) exp
      then some { id := String.mk idCs, exp := exp }
      else none
    | none => none
  | _ => none

/-- Modelled jwt.verify: signature and expiry check only; yields the decoded
claims, none standing for the thrown verification error. -/
def jwtVerify (token secret : String) (now : Nat) : Option JwtPayload :=
  match jwtParse token secret with
  | some p => if now < p.exp then some p else none
  | none => none

/-- The JS object jwt.verify hands back for a payload of this service: the
id claim and the numeric exp (the library also adds iat, likewise numeric).
No role field is present. -/
def payloadObj (p : JwtPayload) : JsObj :=
  [("id", JsVal.str p.id), ("exp", JsVal.num p.exp)]

/-! ## Data model (mongo/models via the schema described in spec section 3) -/

/-- A user document: id, unique email, bcrypt password hash, role string,
first and last name. There is no name field. -/
structure User where
  id : String
  email : String
  password : String
  role : String
  firstname : String
  lastname : String
deriving DecidableEq, Repr

/-- A token document as generateCredentials creates it: both token strings,
both absolute expiry instants, and the owning user embedded as a full copy
at issuance time. -/
structure TokenRecord where
  accessToken : String
  accessTokenExpiresAt : Nat
  refreshToken : String
  refreshTokenExpiresAt : Nat
  user : User
deriving DecidableEq, Repr

/-- The document store: the user collection and the token collection, each a
list in insertion order (findOne returns the first match). -/
structure Store where
  users : List User
  tokens : List TokenRecord
deriving DecidableEq, Repr

/-- Process environment: the two signing secrets. -/
structure Env where
  accessTokenSecret : String
  refreshTokenSecret : String
deriving DecidableEq, Repr

/-- The redacted user view generateCredentials returns: the id, email and
name properties of the user document. The document has no name field, so
that property read yields undefined. -/
structure PublicUser where
  id : String
  email : String
  name : JsVal
deriving DecidableEq, Repr

/-- The JS expression user.name inside generateCredentials: the user
document carries no name property (spec section 3 lists id, email,
password, role, firstname, lastname), so the read is undefined. -/
def userName (_u : User) : JsVal :=
  JsVal.undef

/-- The value generateCredentials returns: both tokens and the redacted
user view. -/
structure Credentials where
  accessToken : String
  refreshToken : String
  user : PublicUser
deriving DecidableEq, Repr

/-- The failures the service surfaces: the four thrown service errors, and
nullDeref for the TypeError raised by reading a property of a null document
(not a thrown service error, but how the code actually fails there). -/
inductive AuthError where
  | userNotFound
  | invalidPassword
  | invalidToken
  | invalidRole
  | nullDeref
deriving DecidableEq, Repr

/-! ## auth.service.js

Each mutating operation maps a store to a result and the store it leaves
behind: an exception thrown midway (the nullDeref TypeError in refresh)
still keeps the mutations made before the throw, exactly as the JS code
does. -/

/-- generateCredentials (auth.service.js lines 12-40): sign the access token
and the refresh token over the id claim only, persist a TokenRecord holding
both tokens, their expiries and the full user document, and return the
tokens with the redacted id/email/name view. A null user makes the very
first property read (user.id inside jwt.sign) throw a TypeError before
anything is persisted. -/
def generateCredentials (env : Env) (now : Nat) (st : Store) (user : Option User) :
    Except AuthError Credentials × Store :=
  match user with
  | none => (.error .nullDeref, st)
  | some u =>
    let token := jwtSign u.id env.accessTokenSecret now 7200
    let refresh := jwtSign u.id env.refreshTokenSecret now 604800
    let tokenData : TokenRecord :=
      { accessToken := token
        accessTokenExpiresAt := now + 7200
        refreshToken := refresh
        refreshTokenExpiresAt := now + 604800
        user := u }
    (.ok
      { accessToken := token
        refreshToken := refresh
        user := { id := u.id, email := u.email, name := userName u } },
     { st with tokens := st.tokens ++ [tokenData] })

/-- refreshToken (auth.service.js lines 47-55): verify the presented token
against the refresh secret (throwing on failure), delete every TokenRecord
whose refreshToken matches (the deleteMany is fired without await; the
sequential embedding performs it), look the user up by the id claim, and
issue fresh credentials. Nothing consults the store before or during
verification. -/
def refreshToken (env : Env) (now : Nat) (st : Store) (refreshTok : String) :
    Except AuthError Credentials × Store :=
  match jwtVerify refreshTok env.refreshTokenSecret now with
  | none => (.error .invalidToken, st)
  | some token =>
    let st1 : Store := { st with tokens := st.tokens.filter (fun r => !(r.refreshToken == refreshTok)) }
    generateCredentials env now st1 (st1.users.find? (fun u => u.id == token.id))

/-- login (auth.service.js lines 64-78): findOne by email, throw
userNotFound when absent, compare the password against the stored hash,
throw invalidPassword on mismatch, else delegate to generateCredentials. -/
def login (env : Env) (now : Nat) (st : Store) (email password : String) :
    Except AuthError Credentials × Store :=
  match st.users.find? (fun u => u.email == email) with
  | none => (.error .userNotFound, st)
  | some user =>
    if bcryptCompare password user.password
    then generateCredentials env now st (some user)
    else (.error .invalidPassword, st)

/-- logout: deleteMany on the refreshToken field. -/
def logout (st : Store) (refreshTok : String) : Store :=
  { st with tokens := st.tokens.filter (fun r => !(r.refreshToken == refreshTok)) }

/-- register: create the user with the hashed password (the store assigns
newId) and issue credentials. -/
def register (env : Env) (now : Nat) (st : Store)
    (newId email password role firstname lastname : String) :
    Except AuthError Credentials × Store :=
  let u : User :=
    { id := newId, email := email, password := bcryptHash password
      role := role, firstname := firstname, lastname := lastname }
  generateCredentials env now { st with users := st.users ++ [u] } (some u)

/-- verifyToken: jwt.verify against the access secret. -/
def verifyToken (env : Env) (now : Nat) (token : String) : Except AuthError JwtPayload :=
  match jwtVerify token env.accessTokenSecret now with
  | some p => .ok p
  | none => .error .invalidToken

/-- verifyRefreshToken: jwt.verify against the refresh secret. -/
def verifyRefreshToken (env : Env) (now : Nat) (token : String) : Except AuthError JwtPayload :=
  match jwtVerify token env.refreshTokenSecret now with
  | some p => .ok p
  | none => .error .invalidToken

/-- verifyUser (auth.service.js lines 142-150): findOne by stored access
token string; invalidToken when absent; otherwise the embedded user copy. -/
def verifyUser (st : Store) (token : String) : Except AuthError User :=
  match st.tokens.find? (fun r => r.accessToken == token) with
  | none => .error .invalidToken
  | some tokenData => .ok tokenData.user

/-- validateRole (auth.service.js lines 158-170): findOne by access token;
invalidToken when absent; invalidRole when the embedded user role differs
from the requested role; otherwise the embedded user. -/
def validateRole (st : Store) (token role : String) : Except AuthError User :=
  match st.tokens.find? (fun r => r.accessToken == token) with
  | none => .error .invalidToken
  | some tokenData =>
    if tokenData.user.role != role then .error .invalidRole
    else .ok tokenData.user

/-- Overwrite the first list element satisfying the predicate (mongoose
findById followed by save touches exactly that one document). -/
def updateFirst (p : α → Bool) (f : α → α) : List α → List α
  | [] => []
  | x :: xs => if p x then f x :: xs else x :: updateFirst p f xs

/-- Delete the first list element satisfying the predicate (deleteOne). -/
def deleteFirst (p : α → Bool) : List α → List α
  | [] => []
  | x :: xs => if p x then xs else x :: deleteFirst p xs

/-- updatePassword (auth.service.js lines 179-192): resolve the access
token, findById the embedded user id, overwrite the password with the new
hash and save. A vanished user makes the user.password assignment throw. -/
def updatePassword (st : Store) (token password : String) : Except AuthError Bool × Store :=
  match st.tokens.find? (fun r => r.accessToken == token) with
  | none => (.error .invalidToken, st)
  | some tokenData =>
    match st.users.find? (fun u => u.id == tokenData.user.id) with
    | none => (.error .nullDeref, st)
    | some _ =>
      (.ok true,
       { st with
         users := updateFirst (fun u => u.id == tokenData.user.id)
           (fun u => { u with password := bcryptHash password }) st.users })

/-- The four fields updateUser copies out of the request body. -/
structure UserPatch where
  email : String
  role : String
  firstname : String
  lastname : String
deriving DecidableEq, Repr

/-- updateUser (auth.service.js lines 202-218): resolve the access token,
findById the embedded user id, overwrite email, role, firstname and
lastname unconditionally and save. -/
def updateUser (st : Store) (token : String) (patch : UserPatch) : Except AuthError Bool × Store :=
  match st.tokens.find? (fun r => r.accessToken == token) with
  | none => (.error .invalidToken, st)
  | some tokenData =>
    match st.users.find? (fun u => u.id == tokenData.user.id) with
    | none => (.error .nullDeref, st)
    | some _ =>
      (.ok true,
       { st with
         users := updateFirst (fun u => u.id == tokenData.user.id)
           (fun u => { u with
                       email := patch.email
                       role := patch.role
                       firstname := patch.firstname
                       lastname := patch.lastname })
           st.users })

/-- deleteUser (auth.service.js lines 226-236): resolve the access token,
deleteOne on the user collection by the embedded user id. The token
collection is not touched. -/
def deleteUser (st : Store) (token : String) : Except AuthError Bool × Store :=
  match st.tokens.find? (fun r => r.accessToken == token) with
  | none => (.error .invalidToken, st)
  | some tokenData =>
    (.ok true,
     { st with users := deleteFirst (fun u => u.id == tokenData.user.id) st.users })

/-! ## user middleware -/

/-- The two request headers the middleware reads. -/
structure Request where
  xAccessToken : Option String
  authorization : Option String
deriving DecidableEq, Repr

/-- JS truthiness of a header value: absent and empty strings are falsy. -/
def jsTruthy : Option String → Bool
  | some s => !(s == "")
  | none => false

/-- The JS disjunction of the two header reads. -/
def jsOr (a b : Option String) : Option String :=
  if jsTruthy a then a else b

/-- What one middleware step does to a request: pass it on (next, with the
decoded identity attached) or answer with a status and body. -/
inductive MwResult where
  | ok (user : JsObj)
  | stop (status : Nat) (body : String)
deriving DecidableEq, Repr

/-- isAuthenticated: take the x-access-token header, falling back to
authorization; no token, 401; then jwt.verify the header value verbatim
against the access secret, 400 on failure, else attach the decoded claims
and continue. -/
def isAuthenticated (env : Env) (now : Nat) (req : Request) : MwResult :=
  let token := jsOr req.xAccessToken req.authorization
  if jsTruthy token then
    match jwtVerify (token.getD "") env.accessTokenSecret now with
    | some p => .ok (payloadObj p)
    | none => .stop 400 "Invalid Token"
  else .stop 401 "Access Denied: No Token Provided!"

/-- hasRole: strict inequality between the role property of the attached
identity and the required role; mismatch answers 403, match continues. -/
def hasRole (role : String) (reqUser : JsObj) : MwResult :=
  if jsGet reqUser "role" ≠ JsVal.str role
  then .stop 403 "Access Denied: You dont have correct role"
  else .ok reqUser

end OAuthService

-- Decidable equality of results, so the embedding can be evaluated at
-- concrete inputs inside proofs.
deriving instance DecidableEq for Except

namespace OAuthService

/-! ## Helper lemmas -/

/-- The modelled bcrypt hash is injective in the plaintext. -/
theorem bcryptHash_inj {a b : String} (h : bcryptHash a = bcryptHash b) : a = b := by
  have h2 := congrArg String.data h
  simp [bcryptHash, String.data_append] at h2
  exact String.ext h2

/-- Comparing a password against its own hash succeeds. -/
theorem bcryptCompare_self (pw : String) : bcryptCompare pw (bcryptHash pw) = true := by
  simp [bcryptCompare]

/-- Comparing a password against the hash of a different password fails. -/
theorem bcryptCompare_ne {a b : String} (h : a ≠ b) : bcryptCompare a (bcryptHash b) = false := by
  simp only [bcryptCompare, beq_eq_false_iff_ne, ne_eq]
  intro he
  exact h (bcryptHash_inj he).symm

/-- A token that verifies at one instant verifies at any instant before its
expiry, with the same claims: verification is stateless and depends on the
clock only through the expiry comparison. -/
theorem jwtVerify_later {tok secret : String} {now now2 : Nat} {p : JwtPayload}
    (h : jwtVerify tok secret now = some p) (h2 : now2 < p.exp) :
    jwtVerify tok secret now2 = some p := by
  unfold jwtVerify at h ⊢
  cases hp : jwtParse tok secret with
  | none => simp [hp] at h
  | some q =>
    simp only [hp] at h ⊢
    by_cases hlt : now < q.exp
    · rw [if_pos hlt] at h
      injection h with h
      subst h
      rw [if_pos h2]
    · rw [if_neg hlt] at h
      exact absurd h (by simp)

/-- The empty header value never verifies. -/
theorem jwtVerify_empty (secret : String) (now : Nat) : jwtVerify "" secret now = none := rfl

/-- findOne on a list whose prefix has no match returns the first match. -/
theorem find?_middle {α : Type} {p : α → Bool} {x : α} (l1 l2 : List α)
    (h : ∀ v ∈ l1, p v = false) (hx : p x = true) :
    List.find? p (l1 ++ x :: l2) = some x := by
  induction l1 with
  | nil => simp [List.find?_cons, hx]
  | cons a l ih =>
    have ha := h a (by simp)
    simp only [List.cons_append, List.find?_cons, ha]
    exact ih (fun v hv => h v (by simp [hv]))

/-- Saving the first matching document rewrites exactly that document. -/
theorem updateFirst_middle {α : Type} {p : α → Bool} {f : α → α} {x : α} (l1 l2 : List α)
    (h : ∀ v ∈ l1, p v = false) (hx : p x = true) :
    updateFirst p f (l1 ++ x :: l2) = l1 ++ f x :: l2 := by
  induction l1 with
  | nil => simp [updateFirst, hx]
  | cons a l ih =>
    have ha := h a (by simp)
    simp [updateFirst, ha]
    exact ih (fun v hv => h v (by simp [hv]))

/-- deleteOne removes exactly the first matching document. -/
theorem deleteFirst_middle {α : Type} {p : α → Bool} {x : α} (l1 l2 : List α)
    (h : ∀ v ∈ l1, p v = false) (hx : p x = true) :
    deleteFirst p (l1 ++ x :: l2) = l1 ++ l2 := by
  induction l1 with
  | nil => simp [deleteFirst, hx]
  | cons a l ih =>
    have ha := h a (by simp)
    simp [deleteFirst, ha]
    exact ih (fun v hv => h v (by simp [hv]))

/-- updatePassword never touches the token collection. -/
theorem updatePassword_tokens (st : Store) (token password : String) :
    (updatePassword st token password).2.tokens = st.tokens := by
  unfold updatePassword
  split
  · rfl
  · split <;> rfl

/-- updateUser never touches the token collection. -/
theorem updateUser_tokens (st : Store) (token : String) (patch : UserPatch) :
    (updateUser st token patch).2.tokens = st.tokens := by
  unfold updateUser
  split
  · rfl
  · split <;> rfl

/-- deleteUser never touches the token collection. -/
theorem deleteUser_tokens (st : Store) (token : String) :
    (deleteUser st token).2.tokens = st.tokens := by
  unfold deleteUser
  split <;> rfl

/-- verifyUser reads the token collection only. -/
theorem verifyUser_eq_of_tokens {st1 st2 : Store} (h : st1.tokens = st2.tokens)
    (token : String) : verifyUser st1 token = verifyUser st2 token := by
  unfold verifyUser
  rw [h]

/-! ## Concrete fixtures -/

/-- A two-secret environment. -/
def demoEnv : Env := { accessTokenSecret := "as", refreshTokenSecret := "rs" }

/-- An admin user whose stored hash is the hash of oldpw. -/
def demoUser : User :=
  { id := "u1", email := "ada@db", password := bcryptHash "oldpw"
    role := "admin", firstname := "Ada", lastname := "L" }

/-- The store holding just that user and no tokens. -/
def demoStore : Store := { users := [demoUser], tokens := [] }

/-- The TokenRecord a login at instant 0 persists for that user. -/
def demoRecord : TokenRecord :=
  { accessToken := jwtSign "u1" "as" 0 7200
    accessTokenExpiresAt := 7200
    refreshToken := jwtSign "u1" "rs" 0 604800
    refreshTokenExpiresAt := 604800
    user := demoUser }

/-- The credentials that login returns. -/
def demoCreds : Credentials :=
  { accessToken := jwtSign "u1" "as" 0 7200
    refreshToken := jwtSign "u1" "rs" 0 604800
    user := { id := "u1", email := "ada@db", name := JsVal.undef } }

/-- The store after that login. -/
def demoStore1 : Store := { users := [demoUser], tokens := [demoRecord] }

/-- A profile patch used to exercise updateUser. -/
def demoPatch : UserPatch :=
  { email := "new@db", role := "member", firstname := "N", lastname := "P" }

/-! ## Claims -/

/-- C4: generateCredentials returns the access token, the refresh token and
a redacted user view whose fields are exactly id, email and name, and the
returned value is independent of the stored password hash (the hash lives
only in the persisted TokenRecord, never in the returned object). -/
theorem c4_issued_credentials_redacted (env : Env) (now : Nat) (st : Store) (u : User)
    (otherHash : String) :
    generateCredentials env now st (some u) =
      (.ok { accessToken := jwtSign u.id env.accessTokenSecret now 7200
             refreshToken := jwtSign u.id env.refreshTokenSecret now 604800
             user := { id := u.id, email := u.email, name := JsVal.undef } },
       { st with tokens := st.tokens ++
          [{ accessToken := jwtSign u.id env.accessTokenSecret now 7200
             accessTokenExpiresAt := now + 7200
             refreshToken := jwtSign u.id env.refreshTokenSecret now 604800
             refreshTokenExpiresAt := now + 604800
             user := u }] })
    ∧ (generateCredentials env now st (some { u with password := otherHash })).1 =
        (generateCredentials env now st (some u)).1 :=
  ⟨rfl, rfl⟩

/-- C6: login fails with userNotFound when no user carries the email, with
invalidPassword when the hash comparison fails, and otherwise returns
exactly the result of credential issuance for the found user. -/
theorem c6_login_error_taxonomy (env : Env) (now : Nat) (st : Store) (email pw : String) :
    (st.users.find? (fun v => v.email == email) = none →
      login env now st email pw = (.error .userNotFound, st))
    ∧ (∀ u, st.users.find? (fun v => v.email == email) = some u →
        bcryptCompare pw u.password = false →
        login env now st email pw = (.error .invalidPassword, st))
    ∧ (∀ u, st.users.find? (fun v => v.email == email) = some u →
        bcryptCompare pw u.password = true →
        login env now st email pw = generateCredentials env now st (some u)) := by
  refine ⟨?_, ?_, ?_⟩
  · intro h
    simp [login, h]
  · intro u hu hc
    simp [login, hu, hc]
  · intro u hu hc
    simp [login, hu, hc]

/-- C6 witness: the three login branches at concrete inputs. -/
theorem c6_login_taxonomy_witness :
    login demoEnv 0 demoStore "absent@db" "oldpw" = (.error .userNotFound, demoStore)
    ∧ login demoEnv 0 demoStore "ada@db" "wrongpw" = (.error .invalidPassword, demoStore)
    ∧ login demoEnv 0 demoStore "ada@db" "oldpw" =
        generateCredentials demoEnv 0 demoStore (some demoUser) :=
  ⟨(c6_login_error_taxonomy demoEnv 0 demoStore "absent@db" "oldpw").1 (by decide),
   (c6_login_error_taxonomy demoEnv 0 demoStore "ada@db" "wrongpw").2.1 demoUser
     (by decide) (by decide),
   (c6_login_error_taxonomy demoEnv 0 demoStore "ada@db" "oldpw").2.2 demoUser
     (by decide) (by decide)⟩

/-- C7: validateRole fails with invalidToken when no TokenRecord carries the
access token, with invalidRole when the embedded user role differs from the
requested role, and otherwise returns the embedded user. -/
theorem c7_validateRole_error_taxonomy (st : Store) (tok role : String) :
    (st.tokens.find? (fun r => r.accessToken == tok) = none →
      validateRole st tok role = .error .invalidToken)
    ∧ (∀ rec, st.tokens.find? (fun r => r.accessToken == tok) = some rec →
        rec.user.role ≠ role → validateRole st tok role = .error .invalidRole)
    ∧ (∀ rec, st.tokens.find? (fun r => r.accessToken == tok) = some rec →
        rec.user.role = role → validateRole st tok role = .ok rec.user) := by
  refine ⟨?_, ?_, ?_⟩
  · intro h
    simp [validateRole, h]
  · intro rec h hne
    simp [validateRole, h, bne_iff_ne, hne]
  · intro rec h heq
    simp [validateRole, h, heq]

/-- C7 witness: the three validateRole branches at concrete inputs. -/
theorem c7_validateRole_taxonomy_witness :
    validateRole demoStore1 "absent" "admin" = .error .invalidToken
    ∧ validateRole demoStore1 demoRecord.accessToken "member" = .error .invalidRole
    ∧ validateRole demoStore1 demoRecord.accessToken "admin" = .ok demoUser :=
  ⟨(c7_validateRole_error_taxonomy demoStore1 "absent" "admin").1 (by decide),
   (c7_validateRole_error_taxonomy demoStore1 demoRecord.accessToken "member").2.1 demoRecord
     (by decide) (by decide),
   (c7_validateRole_error_taxonomy demoStore1 demoRecord.accessToken "admin").2.2 demoRecord
     (by decide) (by decide)⟩

/-- C8: with a valid token, deleteUser removes exactly the user document
whose id the token embeds and returns the token collection untouched (no
cascade delete of the TokenRecords of that user). -/
theorem c8_deleteUser_deletes_user_keeps_tokens (tokens : List TokenRecord)
    (before after : List User) (tok : String) (rec : TokenRecord) (u : User)
    (hrec : tokens.find? (fun r => r.accessToken == tok) = some rec)
    (hid : u.id = rec.user.id)
    (hbefore : ∀ v ∈ before, (v.id == rec.user.id) = false) :
    deleteUser { users := before ++ u :: after, tokens := tokens } tok =
      (.ok true, { users := before ++ after, tokens := tokens }) := by
  simp [deleteUser, hrec]
  exact deleteFirst_middle before after hbefore (by simp [hid])

/-- C8 witness: deleting the demo user leaves its TokenRecord in place. -/
theorem c8_deleteUser_witness :
    deleteUser { users := [demoUser], tokens := [demoRecord] } demoRecord.accessToken =
      (.ok true, { users := [], tokens := [demoRecord] }) :=
  c8_deleteUser_deletes_user_keeps_tokens [demoRecord] [] [] demoRecord.accessToken
    demoRecord demoUser (by decide) rfl (by decide)

/-- C1: the claim does not hold on the code. generateCredentials signs the
access token over the id claim only, so the claims the middleware attaches
carry no role property; hasRole then compares undefined against the
required role with strict inequality and rejects with 403 even for a user
whose role equals the required role. -/
theorem c1_hasRole_rejects_even_when_role_matches (env : Env) (now now2 : Nat)
    (st st1 : Store) (u : User) (c : Credentials) (p : JwtPayload) (role : String)
    (hrole : u.role = role)
    (hgen : generateCredentials env now st (some u) = (.ok c, st1))
    (hver : jwtVerify c.accessToken env.accessTokenSecret now2 = some p) :
    isAuthenticated env now2 { xAccessToken := some c.accessToken, authorization := none } =
      .ok (payloadObj p)
    ∧ jsGet (payloadObj p) "role" = JsVal.undef
    ∧ hasRole role (payloadObj p) = .stop 403 "Access Denied: You dont have correct role" := by
  have hne : c.accessToken ≠ "" := by
    intro h0
    rw [h0, jwtVerify_empty] at hver
    cases hver
  refine ⟨?_, rfl, ?_⟩
  · simp [isAuthenticated, jsOr, jsTruthy, hne, hver]
  · simp [hasRole, payloadObj, jsGet]

/-- C1 witness: the demo admin presenting an access token just issued for
the admin role is still rejected by the admin gate. -/
theorem c1_witness_admin_rejected :
    isAuthenticated demoEnv 5 { xAccessToken := some demoCreds.accessToken, authorization := none } =
      .ok (payloadObj { id := "u1", exp := 7200 })
    ∧ jsGet (payloadObj { id := "u1", exp := 7200 }) "role" = JsVal.undef
    ∧ hasRole "admin" (payloadObj { id := "u1", exp := 7200 }) =
        .stop 403 "Access Denied: You dont have correct role" :=
  c1_hasRole_rejects_even_when_role_matches demoEnv 0 5 demoStore demoStore1 demoUser demoCreds
    { id := "u1", exp := 7200 } "admin" rfl (by decide) (by decide)

/-- C10: the middleware verifies the header value verbatim, with no scheme
stripping; a header value that does not itself verify under the access
secret is answered with 400 Invalid Token. -/
theorem c10_unverified_header_rejected_400 (env : Env) (now : Nat) (req : Request)
    (t : String)
    (hval : jsOr req.xAccessToken req.authorization = some t)
    (hne : t ≠ "")
    (hver : jwtVerify t env.accessTokenSecret now = none) :
    isAuthenticated env now req = .stop 400 "Invalid Token" := by
  simp [isAuthenticated, hval, jsTruthy, hne, hver]

/-- C10 witness: a valid unexpired access token prefixed with the Bearer
scheme is rejected with 400. -/
theorem c10_witness_bearer_prefixed_rejected :
    isAuthenticated demoEnv 5
      { xAccessToken := some ("Bearer " ++ jwtSign "u1" "as" 0 7200), authorization := none } =
      .stop 400 "Invalid Token" :=
  c10_unverified_header_rejected_400 demoEnv 5
    { xAccessToken := some ("Bearer " ++ jwtSign "u1" "as" 0 7200), authorization := none }
    ("Bearer " ++ jwtSign "u1" "as" 0 7200) (by decide) (by decide) (by decide)

/-- C3: the claim does not hold as worded. When a verifying refresh token
carries a subject id that resolves to no user, refreshToken passes the null
findById result straight into generateCredentials, which fails with the
modelled TypeError (nullDeref), not with userNotFound; the rotation delete
has run and no new TokenRecord has been created. -/
theorem c3_refresh_missing_subject_type_error (env : Env) (now : Nat) (st : Store)
    (tok : String) (p : JwtPayload)
    (hver : jwtVerify tok env.refreshTokenSecret now = some p)
    (hu : st.users.find? (fun v => v.id == p.id) = none) :
    refreshToken env now st tok =
      (.error .nullDeref,
       { users := st.users
         tokens := st.tokens.filter (fun r => !(r.refreshToken == tok)) }) := by
  simp [refreshToken, hver, hu, generateCredentials]

/-- C3 witness: a verifying refresh token for the absent subject ghost
fails with the TypeError and adds no TokenRecord. -/
theorem c3_witness_ghost_refresh :
    refreshToken demoEnv 1 demoStore1 (jwtSign "ghost" "rs" 0 604800) =
      (.error .nullDeref, demoStore1) :=
  c3_refresh_missing_subject_type_error demoEnv 1 demoStore1 (jwtSign "ghost" "rs" 0 604800)
    { id := "ghost", exp := 604800 } (by decide) (by decide)

/-- C2 counterexample: from a login, the first refresh succeeds, and a
second refresh with the same refresh token also succeeds instead of
failing with invalidToken. -/
def c2FirstCall : Except AuthError Credentials × Store :=
  refreshToken demoEnv 1 demoStore1 demoCreds.refreshToken

/-- The second refresh call, replaying the same refresh token against the
store the first call left behind. -/
def c2SecondCall : Except AuthError Credentials × Store :=
  refreshToken demoEnv 2 c2FirstCall.2 demoCreds.refreshToken

/-- C2 counterexample: the refresh token demoCreds.refreshToken comes from
a login; the first refresh succeeds, and the replay succeeds as well, so
the second call does not fail with invalidToken. -/
theorem c2_counterexample_second_refresh_succeeds :
    login demoEnv 0 demoStore "ada@db" "oldpw" = (.ok demoCreds, demoStore1)
    ∧ c2FirstCall.1.isOk = true
    ∧ c2SecondCall.1.isOk = true
    ∧ c2SecondCall.1 ≠ .error .invalidToken :=
  ⟨by decide, by decide, by decide, by decide⟩

/-- C2 as the code has it: the first refresh deletes every TokenRecord
matching the presented refresh token and returns a new pair, but a second
call with the same token succeeds again (signature-and-expiry verification
never consults the store), as long as the token is unexpired and the
subject still resolves. -/
theorem c2_rotation_but_replay_succeeds (env : Env) (now now2 : Nat) (st : Store)
    (tok : String) (p : JwtPayload) (u : User)
    (hver : jwtVerify tok env.refreshTokenSecret now = some p)
    (hu : st.users.find? (fun v => v.id == p.id) = some u)
    (hexp : now2 < p.exp) :
    refreshToken env now st tok =
      (.ok { accessToken := jwtSign u.id env.accessTokenSecret now 7200
             refreshToken := jwtSign u.id env.refreshTokenSecret now 604800
             user := { id := u.id, email := u.email, name := JsVal.undef } },
       { users := st.users
         tokens := st.tokens.filter (fun r => !(r.refreshToken == tok)) ++
           [{ accessToken := jwtSign u.id env.accessTokenSecret now 7200
              accessTokenExpiresAt := now + 7200
              refreshToken := jwtSign u.id env.refreshTokenSecret now 604800
              refreshTokenExpiresAt := now + 604800
              user := u }] })
    ∧ (refreshToken env now2 (refreshToken env now st tok).2 tok).1.isOk = true := by
  have hver2 := jwtVerify_later hver hexp
  constructor
  · simp [refreshToken, hver, hu, generateCredentials, userName]
  · simp [refreshToken, hver, hver2, hu, generateCredentials, userName, Except.isOk,
      Except.toBool]

/-- C2 witness: the amended behaviour at the concrete demo store. -/
theorem c2_amended_witness :
    refreshToken demoEnv 1 demoStore1 demoCreds.refreshToken =
      (.ok { accessToken := jwtSign "u1" "as" 1 7200
             refreshToken := jwtSign "u1" "rs" 1 604800
             user := { id := "u1", email := "ada@db", name := JsVal.undef } },
       { users := [demoUser]
         tokens := [{ accessToken := jwtSign "u1" "as" 1 7200
                      accessTokenExpiresAt := 7201
                      refreshToken := jwtSign "u1" "rs" 1 604800
                      refreshTokenExpiresAt := 604801
                      user := demoUser }] })
    ∧ (refreshToken demoEnv 2 (refreshToken demoEnv 1 demoStore1 demoCreds.refreshToken).2
        demoCreds.refreshToken).1.isOk = true :=
  c2_rotation_but_replay_succeeds demoEnv 1 2 demoStore1 demoCreds.refreshToken
    { id := "u1", exp := 604800 } demoUser (by decide) (by decide) (by decide)

/-- C5: after updatePassword through a valid token, login with the old
password fails with invalidPassword while login with the new password
succeeds. The store is laid out as a prefix of users matching neither the
id nor the email of the target user, then the target, then the rest. -/
theorem c5_password_update_switches_login (env : Env) (now1 now2 now3 : Nat)
    (before after : List User) (tokens : List TokenRecord)
    (tok oldPw newPw : String) (rec : TokenRecord) (u : User)
    (hrec : tokens.find? (fun r => r.accessToken == tok) = some rec)
    (hid : u.id = rec.user.id)
    (hstored : u.password = bcryptHash oldPw)
    (hbid : ∀ v ∈ before, (v.id == rec.user.id) = false)
    (hbemail : ∀ v ∈ before, (v.email == u.email) = false)
    (hne : oldPw ≠ newPw) :
    (login env now1 { users := before ++ u :: after, tokens := tokens } u.email oldPw).1.isOk
      = true
    ∧ updatePassword { users := before ++ u :: after, tokens := tokens } tok newPw =
        (.ok true, { users := before ++ { u with password := bcryptHash newPw } :: after
                     tokens := tokens })
    ∧ (login env now2 { users := before ++ { u with password := bcryptHash newPw } :: after
                        tokens := tokens } u.email oldPw).1 = .error .invalidPassword
    ∧ (login env now3 { users := before ++ { u with password := bcryptHash newPw } :: after
                        tokens := tokens } u.email newPw).1.isOk = true := by
  have hfe : List.find? (fun v => v.email == u.email) (before ++ u :: after) = some u :=
    find?_middle before after hbemail (by simp)
  have hfe2 : List.find? (fun v => v.email == u.email)
      (before ++ { u with password := bcryptHash newPw } :: after) =
      some { u with password := bcryptHash newPw } :=
    find?_middle before after hbemail (by simp)
  have hfid : List.find? (fun v => v.id == rec.user.id) (before ++ u :: after) = some u :=
    find?_middle before after hbid (by simp [hid])
  refine ⟨?_, ?_, ?_, ?_⟩
  · simp [login, hfe, hstored, bcryptCompare_self, generateCredentials, Except.isOk,
      Except.toBool]
  · simp [updatePassword, hrec, hfid]
    exact updateFirst_middle before after hbid (by simp [hid])
  · simp [login, hfe2, bcryptCompare_ne hne]
  · simp [login, hfe2, bcryptCompare_self, generateCredentials, Except.isOk, Except.toBool]

/-- C5 witness: rotating the password of the demo user through its access
token switches which login attempt succeeds. -/
theorem c5_witness_password_rotation :
    (login demoEnv 0 { users := [demoUser], tokens := [demoRecord] } "ada@db" "oldpw").1.isOk
      = true
    ∧ updatePassword { users := [demoUser], tokens := [demoRecord] } demoRecord.accessToken
        "newpw" =
        (.ok true, { users := [{ demoUser with password := bcryptHash "newpw" }]
                     tokens := [demoRecord] })
    ∧ (login demoEnv 0 { users := [{ demoUser with password := bcryptHash "newpw" }]
                         tokens := [demoRecord] } "ada@db" "oldpw").1 = .error .invalidPassword
    ∧ (login demoEnv 0 { users := [{ demoUser with password := bcryptHash "newpw" }]
                         tokens := [demoRecord] } "ada@db" "newpw").1.isOk = true :=
  c5_password_update_switches_login demoEnv 0 0 0 [] [] [demoRecord] demoRecord.accessToken
    "oldpw" "newpw" demoRecord demoUser (by decide) rfl rfl (by decide) (by decide) (by decide)

/-- A TokenRecord just appended by generateCredentials resolves back to the
user embedded at issuance, provided no earlier record shares the token
string. -/
theorem verifyUser_after_issue (env : Env) (now : Nat) (st st1 : Store) (u : User)
    (c : Credentials)
    (hgen : generateCredentials env now st (some u) = (.ok c, st1))
    (hfresh : ∀ r ∈ st.tokens, (r.accessToken == c.accessToken) = false) :
    verifyUser st1 c.accessToken = .ok u := by
  have hc := congrArg Prod.fst hgen
  have hst := congrArg Prod.snd hgen
  simp only [generateCredentials] at hc hst
  injection hc with hc
  subst hc
  subst hst
  simp only [verifyUser]
  rw [find?_middle st.tokens [] hfresh (by simp)]

/-- C9: verifyUser returns the full user document embedded in the
TokenRecord at issuance time, password hash included, and this result is
unchanged by any later updatePassword, updateUser or deleteUser, all of
which touch only the user collection. -/
theorem c9_verifyUser_returns_issuance_snapshot (env : Env) (now : Nat) (st st1 : Store)
    (u : User) (c : Credentials) (tok2 pw2 : String) (patch : UserPatch)
    (hgen : generateCredentials env now st (some u) = (.ok c, st1))
    (hfresh : ∀ r ∈ st.tokens, (r.accessToken == c.accessToken) = false) :
    verifyUser st1 c.accessToken = .ok u
    ∧ verifyUser (updatePassword st1 tok2 pw2).2 c.accessToken = .ok u
    ∧ verifyUser (updateUser st1 tok2 patch).2 c.accessToken = .ok u
    ∧ verifyUser (deleteUser st1 tok2).2 c.accessToken = .ok u := by
  have hbase := verifyUser_after_issue env now st st1 u c hgen hfresh
  exact ⟨hbase,
    (verifyUser_eq_of_tokens (updatePassword_tokens st1 tok2 pw2) c.accessToken).trans hbase,
    (verifyUser_eq_of_tokens (updateUser_tokens st1 tok2 patch) c.accessToken).trans hbase,
    (verifyUser_eq_of_tokens (deleteUser_tokens st1 tok2) c.accessToken).trans hbase⟩

/-- C9 witness: even after updating the password and the profile through
the very token, and after deleting the user, verifyUser still returns the
issuance-time user document with the original password hash. -/
theorem c9_snapshot_witness :
    verifyUser demoStore1 demoCreds.accessToken = .ok demoUser
    ∧ verifyUser (updatePassword demoStore1 demoCreds.accessToken "npw").2
        demoCreds.accessToken = .ok demoUser
    ∧ verifyUser (updateUser demoStore1 demoCreds.accessToken demoPatch).2
        demoCreds.accessToken = .ok demoUser
    ∧ verifyUser (deleteUser demoStore1 demoCreds.accessToken).2
        demoCreds.accessToken = .ok demoUser :=
  c9_verifyUser_returns_issuance_snapshot demoEnv 0 demoStore demoStore1 demoUser demoCreds
    demoCreds.accessToken "npw" demoPatch (by decide) (by decide)

end OAuthService
